import Mathlib

/-!
# Verification of the degen-tg-bot multi-signal risk/opportunity fusion engine

Shallow embedding of the analysis core of the repository:

* `src/analyzers/wallet-quality.analyzer.ts` (`WalletQualityAnalyzer`)
* `src/analyzers/lp-health.analyzer.ts` (`LPHealthAnalyzer`)
* `src/analyzers/seller-exhaustion.analyzer.ts` (`SellerExhaustionAnalyzer`)
* `src/analyzers/jeeter-zone.detector.ts` (`JeeterZoneDetector`)
* `threeLayerAnalysis.ts` (`computeMicrostructureSignals`,
  `computeStructuralSignals`, `predictOutcome`,
  `ThreeLayerAnalysisService.analyzeToken`)

Modelling conventions:

* JavaScript numbers are modelled as rationals (`ℚ`).  Where the source
  explicitly checks `isNaN`, the corresponding input field is given the
  NaN-capable type `JNum` below so the check is meaningful.
* Optional (`x?:`) numeric fields are `Option ℚ`; JS truthiness of such a
  field (`x && ...`) is `truthy` below (present and non-zero).
* `Math.sqrt` produces irrational values; it is abstracted as an explicit
  function parameter `sqrtFn : ℚ → ℚ`.  Every theorem below is proved for an
  arbitrary `sqrtFn`, so in particular it holds for the real square root.
* JS division by zero yields `Infinity`/`NaN`; in `ℚ`, `x / 0 = 0`.  At each
  division site where the denominator can be zero, the embedding reproduces
  the JS branch outcome explicitly (see the comments at those sites).
* Purely informational string outputs (`reasons`, `debug`) that interpolate
  numbers into text are omitted; literal string lists (`risks`) are kept.
-/

namespace DegenBot

/-- The clamp pattern `Math.max(lo, Math.min(hi, x))` used throughout the
source. -/
def clamp (lo hi x : ℚ) : ℚ := max lo (min hi x)

/-- JS `Math.round`: round half toward positive infinity. -/
def jsRound (x : ℚ) : ℤ := ⌊x + 1/2⌋

/-- A JS number that may be `NaN`. -/
inductive JNum where
  | nan : JNum
  | val : ℚ → JNum
deriving DecidableEq

/-- The NaN guard `isNaN(x) ? 0 : x` used before every weighted sum. -/
def JNum.sanitize : JNum → ℚ
  | .nan => 0
  | .val q => q

/-- The fallback `isNaN(x) ? d : x`. -/
def JNum.orElse (x : JNum) (d : ℚ) : ℚ :=
  match x with
  | .nan => d
  | .val q => q

/-- JS truthiness of an optional number: present and non-zero.  (`NaN` does
not occur in the optional input fields of the data model.) -/
def truthy : Option ℚ → Bool
  | none => false
  | some q => q != 0

/-- Last `n` elements of a list — JS `slice(-n)` for `n > 0` (the whole list
when it is shorter than `n`). -/
def takeLast (n : ℕ) (l : List ℚ) : List ℚ :=
  if n ≤ l.length then l.drop (l.length - n) else l

/- ============================ -/

/-- One sample (`PricePoint`) of the ascending price series. -/
structure PricePoint where
  price : ℚ
  timestamp : ℤ
deriving DecidableEq

/-- One buy or sell event of a holder (`TransactionInfo`, token.types.ts).
The `type` field is implicit in which list (`buyTransactions` or
`sellTransactions`) the event is stored in; `signature` is not used by the
analyzers. -/
structure TransactionInfo where
  timestamp : ℤ
  amount : ℚ
deriving DecidableEq

/-- Holder record (`HolderInfo`, token.types.ts).  The fields
`firstSeen`/`lastSeen`/`isBundle` are not
read by the analyzed functions and are omitted. -/
structure HolderInfo where
  address : String
  balance : ℚ
  percentage : ℚ
  transactionCount : Option ℚ
  buyTransactions : Option (List TransactionInfo)
  sellTransactions : Option (List TransactionInfo)
  averageHoldTime : Option ℚ
  isJeeter : Bool
  jeeterScore : Option ℚ
deriving DecidableEq

/-- Token snapshot (`TokenInfo`, token.types.ts). -/
structure TokenInfo where
  address : String
  decimals : ℚ
  supply : ℚ
  marketCap : Option ℚ
  price : Option ℚ
  liquidity : Option ℚ
deriving DecidableEq

/-- The `mevPatterns` sub-record of `TransactionAnalysis`. -/
structure MevPatterns where
  detected : Bool
  sandwichAttacks : ℚ
  frontRunning : ℚ
  botLikeBehavior : ℚ
  score : ℚ
deriving DecidableEq

/-- Aggregated flow-window statistics (`TransactionAnalysis`,
transaction.types.ts).  The
fields `largeTransactions`, `whaleActivity`, `smartMoneyActivity`
and the price-impact fields are not read by the analyzed functions and are
omitted. -/
structure TransactionAnalysis where
  buySellRatio : ℚ
  buyVolume : ℚ
  sellVolume : ℚ
  totalVolume : ℚ
  buySellRatio5m : ℚ
  buySellRatio15m : ℚ
  buySellRatio1h : ℚ
  buySellRatio24h : ℚ
  largeBuyCount : ℚ
  largeSellCount : ℚ
  mevPatterns : MevPatterns
  transactionCount : ℚ
  transactionsPerMinute : ℚ
  averageTransactionSize : ℚ
deriving DecidableEq

/- ============================
    WalletQualityAnalyzer (wallet-quality.analyzer.ts)
   ============================ -/

/-- Wallet behaviour category (`WalletCategory`). -/
inductive WalletCategory where
  | sniper
  | jeeter
  | weak_hands
  | strong_hands
  | whale
  | mev_bot
  | router_arbitrage_bot
  | unknown
deriving DecidableEq

/-- Classification result (`WalletQualityScore`); the `reasons` strings are
informational only and omitted. -/
structure WalletQualityScore where
  category : WalletCategory
  score : ℚ
  confidence : ℚ
deriving DecidableEq

/-- Number of buy events with a matching quick sell (a sell strictly later
and completing within 2 minutes = 120000 ms), from `isSniper`. -/
def quickRoundTrips (buys sells : List TransactionInfo) : ℕ :=
  (buys.filter (fun buy => sells.any (fun sell =>
    decide (buy.timestamp < sell.timestamp) &&
    decide (sell.timestamp - buy.timestamp < 120000)))).length

/-- Sniper rule (`WalletQualityAnalyzer.isSniper`): hold time `< 5` min with transaction
count `> 10`, or more than 3 quick buy→sell round trips. -/
def isSniper (h : HolderInfo) : Bool :=
  ((match h.averageHoldTime with
    | some t => decide (t < 5)
    | none => false) &&
   (match h.transactionCount with
    | some n => (n != 0) && decide (n > 10)
    | none => false)) ||
  (match h.buyTransactions, h.sellTransactions with
   | some buys, some sells => decide (quickRoundTrips buys sells > 3)
   | _, _ => false)

/-- The jeeter rule of `classifyWallet`: explicit flag, or truthy
`jeeterScore` above 50. -/
def isJeeterWallet (h : HolderInfo) : Bool :=
  h.isJeeter ||
  (truthy h.jeeterScore &&
   (match h.jeeterScore with
    | some s => decide (s > 50)
    | none => false))

/-- MEV-bot rule (`WalletQualityAnalyzer.isMEVBot`): more than 50 transactions, or more than
20 buys with hold time under a minute. -/
def isMEVBot (h : HolderInfo) : Bool :=
  (match h.transactionCount with
   | some n => (n != 0) && decide (n > 50)
   | none => false) ||
  (match h.buyTransactions, h.averageHoldTime with
   | some buys, some t => decide (buys.length > 20) && decide (t < 1)
   | _, _ => false)

/-- The whale rule of `classifyWallet`: more than 5% of supply. -/
def isWhale (h : HolderInfo) : Bool :=
  decide (h.percentage > 5)

/-- Strong-hands rule (`WalletQualityAnalyzer.isStrongHands`).  In the first condition the
source divides `sellCount / buyCount`; when `buyCount = 0` JS yields
`NaN`/`Infinity`, for which `< 0.3` is false — hence the `buys.length ≠ 0`
guard here. -/
def isStrongHands (h : HolderInfo) : Bool :=
  (match h.averageHoldTime, h.sellTransactions, h.buyTransactions with
   | some t, some sells, some buys =>
      decide (t > 120) && (buys.length != 0) &&
      decide ((sells.length : ℚ) / (buys.length : ℚ) < 3/10)
   | _, _, _ => false) ||
  (match h.averageHoldTime with
   | some t =>
      decide (t > 60) &&
      (match h.sellTransactions with
       | none => true
       | some sells => sells.length == 0)
   | none => false)

/-- Weak-hands rule (`WalletQualityAnalyzer.isWeakHands`).  When `buyCount = 0` JS divides to
`Infinity` (if `sellCount > 0`, and `Infinity > 0.7` is true) or `NaN` (if
`sellCount = 0`, comparison false); both cases are spelled out. -/
def isWeakHands (h : HolderInfo) : Bool :=
  match h.averageHoldTime, h.sellTransactions, h.buyTransactions with
  | some t, some sells, some buys =>
      decide (t < 30) &&
      (((buys.length != 0) &&
        decide ((sells.length : ℚ) / (buys.length : ℚ) > 7/10)) ||
       ((buys.length == 0) && (sells.length != 0)))
  | _, _, _ => false

/-- Per-wallet classification (`WalletQualityAnalyzer.classifyWallet`): the
fixed-precedence rule chain, first match wins. -/
def classifyWallet (h : HolderInfo) : WalletQualityScore :=
  if isSniper h then
    { category := .sniper, score := 20, confidence := 70 }
  else if isJeeterWallet h then
    { category := .jeeter, score := 10, confidence := 80 }
  else if isMEVBot h then
    { category := .mev_bot, score := 15, confidence := 60 }
  else if isWhale h then
    { category := .whale,
      score :=
        if truthy h.averageHoldTime &&
           (match h.averageHoldTime with
            | some t => decide (t > 60)
            | none => false) then 85
        else if truthy h.averageHoldTime &&
           (match h.averageHoldTime with
            | some t => decide (t < 10)
            | none => false) then 40
        else 70,
      confidence := 80 }
  else if isStrongHands h then
    { category := .strong_hands, score := 80, confidence := 75 }
  else if isWeakHands h then
    { category := .weak_hands, score := 30, confidence := 70 }
  else
    { category := .unknown, score := 50, confidence := 30 }

/-- Association-list update with JS `Map.set` semantics: replace in place if
the key exists, append otherwise. -/
def setAssoc (m : List (String × WalletQualityScore)) (k : String)
    (v : WalletQualityScore) : List (String × WalletQualityScore) :=
  if m.any (fun p => p.1 == k) then
    m.map (fun p => if p.1 == k then (k, v) else p)
  else m ++ [(k, v)]

/-- The number of holders of a list classified into a category — the value
`categoryDistribution.get(c)` takes after the per-holder loop. -/
def countCategory (holders : List HolderInfo) (c : WalletCategory) : ℕ :=
  (holders.filter (fun h => (classifyWallet h).category == c)).length

/-- Aggregate result (`WalletQualityAnalysis`). -/
structure WalletQualityAnalysis where
  walletScores : List (String × WalletQualityScore)
  categoryDistribution : WalletCategory → ℕ
  averageHoldTime : ℚ
  averageSellBuyRatio : ℚ
  highQualityWalletCount : ℕ
  jeeterDominance : Bool
  sniperDominance : Bool
  overallQualityScore : ℚ

/-- Aggregate wallet-quality analysis (`WalletQualityAnalyzer.analyze`). -/
def WalletQualityAnalyzer.analyze (holders : List HolderInfo) :
    WalletQualityAnalysis :=
  let walletScores :=
    holders.foldl (fun m h => setAssoc m h.address (classifyWallet h)) []
  let dist : WalletCategory → ℕ := fun c => countCategory holders c
  if holders.length = 0 then
    { walletScores := walletScores
      categoryDistribution := dist
      averageHoldTime := 0
      averageSellBuyRatio := 0
      highQualityWalletCount := 0
      jeeterDominance := false
      sniperDominance := false
      overallQualityScore := 0 }
  else
    let n : ℚ := holders.length
    let averageHoldTime :=
      (holders.map (fun h => h.averageHoldTime.getD 0)).sum / n
    let sellBuyRatios :=
      (holders.filter
        (fun h => h.sellTransactions.isSome && h.buyTransactions.isSome)).map
        (fun h =>
          let sellCount : ℚ := (h.sellTransactions.getD []).length
          let buyCountN := (h.buyTransactions.getD []).length
          -- `h.buyTransactions?.length || 1`: an empty buy list counts as 1
          let buyCount : ℚ := if buyCountN = 0 then 1 else buyCountN
          sellCount / buyCount)
    let averageSellBuyRatio :=
      if sellBuyRatios.length > 0 then
        sellBuyRatios.sum / (sellBuyRatios.length : ℚ)
      else 0
    let highQualityWallets :=
      (walletScores.filter (fun p =>
        p.2.category == WalletCategory.strong_hands ||
        p.2.category == WalletCategory.whale)).length
    let jeeterCount : ℚ := dist .jeeter
    let sniperCount : ℚ := dist .sniper
    let strongHandsCount : ℚ := dist .strong_hands
    let whaleCount : ℚ := dist .whale
    { walletScores := walletScores
      categoryDistribution := dist
      averageHoldTime := averageHoldTime
      averageSellBuyRatio := averageSellBuyRatio
      highQualityWalletCount := highQualityWallets
      jeeterDominance := decide (jeeterCount / n > 0.4)
      sniperDominance := decide (sniperCount / n > 0.3)
      overallQualityScore :=
        clamp 0 100
          (((strongHandsCount + whaleCount) / n) * 100 -
           (jeeterCount / n) * 50 - (sniperCount / n) * 30) }

/- ============================
    LPHealthAnalyzer (lp-health.analyzer.ts)
   ============================ -/

/-- Output record (`LPHealthSignals`); the `liquidityStability` field is the
constant string `stable` in the source and is omitted. -/
structure LPHealthSignals where
  liquidityAmount : ℚ
  lpRatio : ℚ
  isHealthy : Bool
  healthScore : ℚ
  risks : List String

/-- Liquidity-pool health scoring (`LPHealthAnalyzer.analyze`).  The source
updates the mutable `score` and `risks` in three numbered steps; the two
are independent, so they are threaded here as parallel chains over the same
conditions. -/
def LPHealthAnalyzer.analyze (tokenInfo : TokenInfo) : LPHealthSignals :=
  let liquidity := tokenInfo.liquidity.getD 0
  let marketCap := tokenInfo.marketCap.getD 0
  let lpRatio : ℚ := if marketCap > 0 then liquidity / marketCap else 0
  -- 1. Absolute liquidity amount
  let score1 : ℚ :=
    if liquidity < 5000 then 100 - 40
    else if liquidity < 10000 then 100 - 20
    else if liquidity < 50000 then 100 - 10
    else 100
  let risks1 : List String :=
    if liquidity < 5000 then ["LP too thin (<$5k)"]
    else if liquidity < 10000 then ["LP low (<$10k)"]
    else if liquidity < 50000 then ["LP moderate"]
    else []
  -- 2. LP to Market Cap ratio
  let score2 : ℚ :=
    if lpRatio > 0 then
      if lpRatio < 0.05 then score1 - 30
      else if lpRatio < 0.1 then score1 - 15
      else if lpRatio > 0.5 then score1 - 10
      else score1
    else score1
  let risks2 : List String :=
    if lpRatio > 0 then
      if lpRatio < 0.05 then risks1 ++ ["LP/MC ratio too low (<5%)"]
      else if lpRatio < 0.1 then risks1 ++ ["LP/MC ratio low (<10%)"]
      else if lpRatio > 0.5 then risks1 ++ ["LP/MC ratio suspiciously high (>50%)"]
      else risks1
    else risks1
  -- 3. Market cap without liquidity (red flag)
  let score3 : ℚ := if marketCap > 0 ∧ liquidity = 0 then 0 else score2
  let risks3 : List String :=
    if marketCap > 0 ∧ liquidity = 0 then risks2 ++ ["No liquidity detected"]
    else risks2
  let healthScore := clamp 0 100 score3
  { liquidityAmount := liquidity
    lpRatio := lpRatio
    isHealthy := decide (healthScore ≥ 60)
    healthScore := healthScore
    risks := risks3 }

/- ============================
    SellerExhaustionAnalyzer (seller-exhaustion.analyzer.ts)
   ============================ -/

/-- Output record (`SellerExhaustionSignals`). -/
structure SellerExhaustionSignals where
  decreasingSellVolume : Bool
  decreasingSellFrequency : Bool
  sellerDominanceCollapse : Bool
  finalLargeSellerExit : Bool
  mevInactivity : Bool
  tightPriceRange : Bool
  volatilityCollapse : Bool
  exhaustionScore : ℚ
  isBottomSignal : Bool

/-- Sell-volume estimate for the last 15 minutes
(`SellerExhaustionAnalyzer.estimateSellVolume15m`). -/
def estimateSellVolume15m (analysis : TransactionAnalysis) : ℚ :=
  (analysis.totalVolume * 0.25) * (1 - analysis.buySellRatio15m)

/-- Standard deviation of absolute relative price changes
(`SellerExhaustionAnalyzer.calculatePriceVolatility`); returns 1 below two
samples.  The division by `prices[i-1]` can hit zero only for a zero price
(the spec requires positive prices); `sqrtFn` abstracts `Math.sqrt`. -/
def calculatePriceVolatility (sqrtFn : ℚ → ℚ)
    (priceHistory : List PricePoint) : ℚ :=
  if priceHistory.length < 2 then 1
  else
    let prices := priceHistory.map (fun p => p.price)
    let changes := (prices.zip prices.tail).map
      (fun pq => |(pq.2 - pq.1) / pq.1|)
    let avgChange := changes.sum / (changes.length : ℚ)
    let variance :=
      (changes.map (fun c => (c - avgChange) ^ 2)).sum / (changes.length : ℚ)
    sqrtFn variance

/-- Relative change of recent vs earlier volatility
(`SellerExhaustionAnalyzer.calculateVolatilityTrend`); 0 below ten samples. -/
def calculateVolatilityTrend (sqrtFn : ℚ → ℚ)
    (priceHistory : List PricePoint) : ℚ :=
  if priceHistory.length < 10 then 0
  else
    let midPoint := priceHistory.length / 2
    let recent := priceHistory.drop midPoint
    let earlier := priceHistory.take midPoint
    let recentVolatility := calculatePriceVolatility sqrtFn recent
    let earlierVolatility := calculatePriceVolatility sqrtFn earlier
    if earlierVolatility = 0 then 0
    else (recentVolatility - earlierVolatility) / earlierVolatility

/-- Seller-exhaustion detection (`SellerExhaustionAnalyzer.analyze`). -/
def SellerExhaustionAnalyzer.analyze (sqrtFn : ℚ → ℚ)
    (transactionAnalysis : TransactionAnalysis)
    (priceHistory : List PricePoint) : SellerExhaustionSignals :=
  -- 1. Decreasing sell volume (last 15m vs last 1h)
  let decreasingSellVolume :=
    decide (estimateSellVolume15m transactionAnalysis <
            transactionAnalysis.sellVolume * 0.3)
  -- 2. Decreasing sell frequency
  let decreasingSellFrequency :=
    decide (transactionAnalysis.largeSellCount <
            transactionAnalysis.largeBuyCount * 0.5) &&
    decide (transactionAnalysis.largeSellCount < 3)
  -- 3. Seller dominance collapse (buy ratio increasing)
  let sellerDominanceCollapse :=
    decide (transactionAnalysis.buySellRatio > 0.6)
  -- 4. Final large seller exit
  let finalLargeSellerExit :=
    decide (transactionAnalysis.largeSellCount > 0) &&
    decide (transactionAnalysis.largeSellCount ≤ 2)
  -- 5. MEV/snipe bot inactivity
  let mevInactivity :=
    !transactionAnalysis.mevPatterns.detected ||
    decide (transactionAnalysis.mevPatterns.score < 20)
  -- 6. Tight price range (low volatility)
  let priceVolatility := calculatePriceVolatility sqrtFn priceHistory
  let tightPriceRange := decide (priceVolatility < 0.05)
  -- 7. Volatility collapse (decreasing volatility over time)
  let volatilityTrend := calculateVolatilityTrend sqrtFn priceHistory
  let volatilityCollapse := decide (volatilityTrend < -0.2)
  let exhaustionScore : ℚ :=
    (if decreasingSellVolume then 20 else 0) +
    (if decreasingSellFrequency then 15 else 0) +
    (if sellerDominanceCollapse then 20 else 0) +
    (if finalLargeSellerExit then 15 else 0) +
    (if mevInactivity then 10 else 0) +
    (if tightPriceRange then 10 else 0) +
    (if volatilityCollapse then 10 else 0)
  let isBottomSignal :=
    decide (exhaustionScore ≥ 60) && tightPriceRange &&
    sellerDominanceCollapse && mevInactivity
  { decreasingSellVolume := decreasingSellVolume
    decreasingSellFrequency := decreasingSellFrequency
    sellerDominanceCollapse := sellerDominanceCollapse
    finalLargeSellerExit := finalLargeSellerExit
    mevInactivity := mevInactivity
    tightPriceRange := tightPriceRange
    volatilityCollapse := volatilityCollapse
    exhaustionScore := exhaustionScore
    isBottomSignal := isBottomSignal }

/- ============================
    JeeterZoneDetector (jeeter-zone.detector.ts)
   ============================ -/

/-- Red-flag record (`JeeterZoneFlags`). -/
structure JeeterZoneFlags where
  highSellToBuyRatio : Bool
  fastHolderRotation : Bool
  snipersEnteringEarly : Bool
  quickDumps : Bool
  liquidityDrainage : Bool
  mevSpam : Bool
  tooManySwapBots : Bool
  noStrongWalletAccumulation : Bool
  lpTooThin : Bool
  routerArbitragePump : Bool
  creatorWalletActivity : Bool
  suspiciousLPBehavior : Bool
  riskScore : ℚ
  isJeeterZone : Bool

/-- Sum of the category-distribution values — `Array.from(values()).reduce`
over the eight initialized categories. -/
def totalWalletsOf (d : WalletCategory → ℕ) : ℕ :=
  d .sniper + d .jeeter + d .weak_hands + d .strong_hands + d .whale +
  d .mev_bot + d .router_arbitrage_bot + d .unknown

/-- Danger-zone red-flag aggregation (`JeeterZoneDetector.detect`).  When
`totalWallets = 0`, JS computes `0/0 = NaN` in the two fraction checks and
`NaN > c` is false; in `ℚ`, `0/0 = 0` and `0 > c` is likewise false, so the
embedding needs no extra guard there. -/
def JeeterZoneDetector.detect (transactionAnalysis : TransactionAnalysis)
    (walletQuality : WalletQualityAnalysis) (tokenInfo : TokenInfo) :
    JeeterZoneFlags :=
  -- 1. High sell-to-buy ratio
  let sellBuyRatio := 1 - transactionAnalysis.buySellRatio
  let highSellToBuyRatio := decide (sellBuyRatio > 0.6)
  let r1 : ℚ := if highSellToBuyRatio then 15 else 0
  -- 2. Fast holder rotation (low average hold time)
  let fastHolderRotation := decide (walletQuality.averageHoldTime < 10)
  let r2 : ℚ := if fastHolderRotation then 15 else 0
  -- 3. Snipers entering early
  let sniperCount : ℚ := walletQuality.categoryDistribution .sniper
  let totalWallets : ℚ := totalWalletsOf walletQuality.categoryDistribution
  let snipersEnteringEarly := decide (sniperCount / totalWallets > 0.3)
  let r3 : ℚ := if snipersEnteringEarly then 20 else 0
  -- 4. Quick dumps (wallets dumping within 1-5 minutes)
  let quickDumps := decide (walletQuality.averageHoldTime < 5)
  let r4 : ℚ := if quickDumps then 20 else 0
  -- 5. Liquidity drainage (simplified: thin LP, `liquidity && liquidity < 10000`)
  let lpThin10k := truthy tokenInfo.liquidity &&
    decide (tokenInfo.liquidity.getD 0 < 10000)
  let r5 : ℚ := if lpThin10k then 15 else 0
  -- 6. MEV spam
  let mevSpam := transactionAnalysis.mevPatterns.detected &&
    decide (transactionAnalysis.mevPatterns.score > 50)
  let r6 : ℚ := if mevSpam then 15 else 0
  -- 7. Too many swap bots
  let mevBotCount : ℚ := walletQuality.categoryDistribution .mev_bot
  let tooManySwapBots := decide (mevBotCount / totalWallets > 0.2)
  let r7 : ℚ := if tooManySwapBots then 10 else 0
  -- 8. No strong wallet accumulation
  let noStrongWalletAccumulation :=
    walletQuality.highQualityWalletCount == 0
  let r8 : ℚ := if noStrongWalletAccumulation then 15 else 0
  -- 9. LP too thin (`liquidity && liquidity < 5000`)
  let lpThin5k := truthy tokenInfo.liquidity &&
    decide (tokenInfo.liquidity.getD 0 < 5000)
  let r9 : ℚ := if lpThin5k then 20 else 0
  -- 10. Router arbitrage pump
  let routerArbitragePump :=
    decide (transactionAnalysis.transactionsPerMinute > 5) &&
    decide (transactionAnalysis.averageTransactionSize < 100)
  let r10 : ℚ := if routerArbitragePump then 10 else 0
  -- 11. Jeeter dominance
  let r11 : ℚ := if walletQuality.jeeterDominance then 25 else 0
  -- 12. Sniper dominance
  let r12 : ℚ := if walletQuality.sniperDominance then 20 else 0
  let riskScore := r1 + r2 + r3 + r4 + r5 + r6 + r7 + r8 + r9 + r10 + r11 + r12
  { highSellToBuyRatio := highSellToBuyRatio
    fastHolderRotation := fastHolderRotation
    snipersEnteringEarly := snipersEnteringEarly
    quickDumps := quickDumps
    liquidityDrainage := false
    mevSpam := mevSpam
    tooManySwapBots := tooManySwapBots
    noStrongWalletAccumulation := noStrongWalletAccumulation
    lpTooThin := lpThin10k || lpThin5k
    routerArbitragePump := routerArbitragePump
    creatorWalletActivity := false
    suspiciousLPBehavior := false
    riskScore := riskScore
    isJeeterZone := decide (riskScore ≥ 50) }

/- ============================
    threeLayerAnalysis.ts
   ============================ -/

namespace PARAMS

/-- Threshold `volatilityCollapseStdDev` (tight range per sample). -/
def volatilityCollapseStdDev : ℚ := 0.03

/-- Threshold `volatilityCompressionPct` (volatility collapse). -/
def volatilityCompressionPct : ℚ := -0.15

/-- Threshold `jeeterRiskScore` used for the risk-level label. -/
def jeeterRiskScore : ℚ := 50

/-- Outcome weight `weights.microstructure`. -/
def weightMicrostructure : ℚ := 0.45

/-- Outcome weight `weights.structural`. -/
def weightStructural : ℚ := 0.45

/-- Outcome weight `weights.volatility`. -/
def weightVolatility : ℚ := 0.1

end PARAMS

/-- Layer-1 output record (`MicrostructureSignals`).  The fields that
`predictOutcome` guards with `isNaN` (`microScore`, `volatilityTrendPct`)
carry the NaN-capable type. -/
structure MicrostructureSignals where
  momentum5s : ℚ
  momentum15s : ℚ
  momentum60s : ℚ
  buySellDelta5s : ℚ
  buySellDelta15s : ℚ
  buySellDelta60s : ℚ
  volatilityStdDevRecent : ℚ
  volatilityTrendPct : JNum
  botActivityIndex : ℚ
  liquidityVelocity : ℚ
  microScore : JNum

/-- Simple momentum of a sample window (the local `momentum` closure of
`computeMicrostructureSignals`): `(last - first) / first`, clamped to
[-10, 10], zero when the window is short or the denominator is tiny. -/
def momentumOf (samples : List ℚ) : ℚ :=
  if samples.length < 2 then 0
  else
    let last := samples.getLast?.getD 0
    let first := samples.head?.getD 0
    if first = 0 ∨ |first| < 1e-12 then 0
    else clamp (-10) 10 ((last - first) / first)

/-- Standard deviation of relative price changes (`stdDevRelativeChanges` of
threeLayerAnalysis.ts); the denominator is guarded by
`Math.max(1e-12, prev)`, so no division by zero occurs.  `sqrtFn` abstracts
`Math.sqrt`. -/
def stdDevRelativeChanges (sqrtFn : ℚ → ℚ) (prices : List ℚ) : ℚ :=
  if prices.length < 2 then 0
  else
    let changes := (prices.zip prices.tail).map
      (fun pq => (pq.2 - pq.1) / max 1e-12 pq.1)
    let mean := changes.sum / (changes.length : ℚ)
    let variance :=
      (changes.map (fun v => (v - mean) ^ 2)).sum / (changes.length : ℚ)
    sqrtFn variance

/-- Layer 1 (`computeMicrostructureSignals`).  The `?? 0.5` fallbacks on the
ratio fields cannot fire (those fields are non-optional in
`TransactionAnalysis`); `tokenInfo` is accepted but unused in the source
(the liquidity-velocity placeholder is always 0). -/
def computeMicrostructureSignals (sqrtFn : ℚ → ℚ) (prices : List PricePoint)
    (tx : TransactionAnalysis) (tokenInfo : Option TokenInfo) :
    MicrostructureSignals :=
  let _ := tokenInfo
  let pricesOnly := prices.map (fun p => p.price)
  let m5 := momentumOf (takeLast (max 2 (min 5 pricesOnly.length)) pricesOnly)
  let m15 := momentumOf (takeLast (max 3 (min 15 pricesOnly.length)) pricesOnly)
  let m60 := momentumOf (takeLast (max 5 (min 60 pricesOnly.length)) pricesOnly)
  let bsr5 := tx.buySellRatio5m
  let bsr15 := tx.buySellRatio15m
  let bsr60 := tx.buySellRatio1h
  let buySellDelta5s := bsr5 - bsr15
  let buySellDelta15s := bsr15 - bsr60
  let buySellDelta60s := bsr60 - tx.buySellRatio
  let volatilityStdDevRecent :=
    clamp 0 10 (stdDevRelativeChanges sqrtFn (takeLast 30 pricesOnly))
  let earlier :=
    if pricesOnly.length > 60 then
      (pricesOnly.drop (pricesOnly.length - 60)).take 30
    else pricesOnly.take (pricesOnly.length - 30)
  let earlierVol := clamp 0 10 (stdDevRelativeChanges sqrtFn earlier)
  let volatilityTrendPct :=
    if earlierVol = 0 then 0
    else clamp (-1) 1 ((volatilityStdDevRecent - earlierVol) / max earlierVol 0.01)
  let txPerMin := tx.transactionsPerMinute
  let avgTxSize := tx.averageTransactionSize
  let botActivityIndex : ℚ :=
    min 100
      ((jsRound (max 0
        ((txPerMin / 30) * 50 +
         (if avgTxSize < 100 then 25 else 0) +
         (if tx.mevPatterns.detected then min tx.mevPatterns.score 25 else 0))) : ℤ) : ℚ)
  let liquidityVelocity : ℚ := 0
  let ms0 : ℚ := 50
  let ms1 := ms0 + clamp (-20) 20 ((jsRound (buySellDelta15s * 100) : ℤ) : ℚ)
  let momentumDeceleration := (m15 - m60) * 100
  let ms2 :=
    ms1 + clamp (-15) 15 ((jsRound (-m60 * 50 + momentumDeceleration) : ℤ) : ℚ)
  let ms3 :=
    if volatilityTrendPct < PARAMS.volatilityCompressionPct then ms2 + 15
    else if volatilityStdDevRecent < PARAMS.volatilityCollapseStdDev then ms2 + 10
    else ms2 - 10
  let ms4 := ms3 - ((jsRound ((botActivityIndex / 100) * 20) : ℤ) : ℚ)
  let ms5 := ms4 + clamp (-10) 10 ((jsRound (liquidityVelocity * 100) : ℤ) : ℚ)
  let microScore := clamp 0 100 ((jsRound ms5 : ℤ) : ℚ)
  { momentum5s := m5
    momentum15s := m15
    momentum60s := m60
    buySellDelta5s := buySellDelta5s
    buySellDelta15s := buySellDelta15s
    buySellDelta60s := buySellDelta60s
    volatilityStdDevRecent := volatilityStdDevRecent
    volatilityTrendPct := JNum.val volatilityTrendPct
    botActivityIndex := botActivityIndex
    liquidityVelocity := liquidityVelocity
    microScore := JNum.val microScore }

/-- Layer-2 output record (`StructuralSignals`); `structuralScore` carries
the NaN-capable type because `predictOutcome` guards it with `isNaN`. -/
structure StructuralSignals where
  walletQualityAnalysis : WalletQualityAnalysis
  lpHealthSignals : LPHealthSignals
  sellerExhaustion : SellerExhaustionSignals
  jeeterFlags : JeeterZoneFlags
  structuralScore : JNum

/-- Layer 2 (`computeStructuralSignals`).  The source substitutes 0 for NaN
components before the weighted sum; the rational components here are never
NaN, so those guards are identities. -/
def computeStructuralSignals (sqrtFn : ℚ → ℚ) (holders : List HolderInfo)
    (tx : TransactionAnalysis) (tokenInfo : TokenInfo)
    (priceHistory : List PricePoint) : StructuralSignals :=
  let walletQuality := WalletQualityAnalyzer.analyze holders
  let lpSignals := LPHealthAnalyzer.analyze tokenInfo
  let exhaustionSignals := SellerExhaustionAnalyzer.analyze sqrtFn tx priceHistory
  let jeeterFlags := JeeterZoneDetector.detect tx walletQuality tokenInfo
  let structuralScore :=
    clamp 0 100 ((jsRound
      (50 + walletQuality.overallQualityScore * 0.3 +
       lpSignals.healthScore * 0.3 +
       exhaustionSignals.exhaustionScore * 0.25 -
       jeeterFlags.riskScore * 0.4) : ℤ) : ℚ)
  { walletQualityAnalysis := walletQuality
    lpHealthSignals := lpSignals
    sellerExhaustion := exhaustionSignals
    jeeterFlags := jeeterFlags
    structuralScore := JNum.val structuralScore }

/-- Entry price band of an outcome. -/
structure EntryZone where
  min : ℚ
  max : ℚ
  optimal : ℚ
deriving DecidableEq

/-- Risk label of an outcome. -/
inductive RiskLevel where
  | low
  | medium
  | high
deriving DecidableEq

/-- Final verdict record (`Outcome`); the `debug` strings are informational
only and omitted. -/
structure Outcome where
  isDipOpportunity : Bool
  isDipTrap : Bool
  dipConfidence : ℚ
  expectedDipDepthPct : ℚ
  entryZone : EntryZone
  combinedScore : ℚ
  riskLevel : RiskLevel
deriving DecidableEq

/-- Layer 3 (`predictOutcome`).  The source assigns the five
branch-dependent outputs inside one if/else chain; here each output is
given by the same chain.  Notes: `isNaN(combinedScoreRaw)` cannot hold
after the three input substitutions; `isNaN(riskScore) ? 50 : riskScore`
is the identity on the rational risk score; and
`micro.volatilityStdDevRecent || 0` is the identity on rationals. -/
def predictOutcome (currentPrice : ℚ) (micro : MicrostructureSignals)
    (structural : StructuralSignals) : Outcome :=
  let microScore := micro.microScore.sanitize
  let structuralScore := structural.structuralScore.sanitize
  let volatilityTrendPct := micro.volatilityTrendPct.sanitize
  let combinedScoreRaw :=
    microScore * PARAMS.weightMicrostructure +
    structuralScore * PARAMS.weightStructural +
    max 0 ((1 - |volatilityTrendPct|) * 100) * PARAMS.weightVolatility
  let combinedScore : ℚ := clamp 0 100 ((jsRound combinedScoreRaw : ℤ) : ℚ)
  let isJeeter := structural.jeeterFlags.isJeeterZone
  let microGood := decide (microScore ≥ 60)
  let structuralGood := decide (structuralScore ≥ 55)
  let jeeterRisk := structural.jeeterFlags.riskScore
  let isDipOpportunity : Bool :=
    if isJeeter then false
    else if microGood && structuralGood then true
    else false
  let isDipTrap : Bool :=
    if isJeeter then true
    else if microGood && structuralGood then false
    else if !microGood && !structuralGood then true
    else false
  let dipConfidence : ℚ :=
    if isJeeter then max combinedScore jeeterRisk
    else if microGood && structuralGood then max combinedScore 60
    else if !microGood && !structuralGood then max combinedScore 55
    else ((jsRound (combinedScore * 0.7) : ℤ) : ℚ)
  let expectedDipDepthPct : ℚ :=
    if isJeeter then 20 + min 40 (jeeterRisk / 2)
    else if microGood && structuralGood then
      3 + max 0 (10 - ((jsRound (micro.volatilityStdDevRecent * 100) : ℤ) : ℚ))
    else if !microGood && !structuralGood then 12
    else 8
  let entryZone : EntryZone :=
    if isJeeter then
      { min := currentPrice * 0.65, max := currentPrice * 0.9,
        optimal := currentPrice * 0.8 }
    else if microGood && structuralGood then
      { min := currentPrice * 0.92, max := currentPrice * 1.02,
        optimal := currentPrice * 0.98 }
    else if !microGood && !structuralGood then
      { min := currentPrice * 0.75, max := currentPrice * 0.95,
        optimal := currentPrice * 0.85 }
    else
      { min := currentPrice * 0.85, max := currentPrice * 1.0,
        optimal := currentPrice * 0.92 }
  let riskLevel : RiskLevel :=
    if isJeeter ||
       decide (structural.jeeterFlags.riskScore > PARAMS.jeeterRiskScore) then
      .high
    else if decide (combinedScore > 70) && !isJeeter then .low
    else .medium
  { isDipOpportunity := isDipOpportunity
    isDipTrap := isDipTrap
    dipConfidence := clamp 0 100 ((jsRound dipConfidence : ℤ) : ℚ)
    expectedDipDepthPct := clamp 0 100 expectedDipDepthPct
    entryZone := entryZone
    combinedScore := combinedScore
    riskLevel := riskLevel }

/-- Orchestrator (`ThreeLayerAnalysisService.analyzeToken`).  The source
reads `priceHistory[priceHistory.length - 1].price` unguarded; on an empty
series that index is `undefined` and the member access throws a
`TypeError` — modelled as `none`. -/
def ThreeLayerAnalysisService.analyzeToken (sqrtFn : ℚ → ℚ)
    (priceHistory : List PricePoint) (txAnalysis : TransactionAnalysis)
    (holders : List HolderInfo) (tokenInfo : TokenInfo) : Option Outcome :=
  let microSignals :=
    computeMicrostructureSignals sqrtFn priceHistory txAnalysis (some tokenInfo)
  let structural :=
    computeStructuralSignals sqrtFn holders txAnalysis tokenInfo priceHistory
  match priceHistory.getLast? with
  | none => none
  | some lastPoint =>
      some (predictOutcome lastPoint.price microSignals structural)

/- ============================
    Specification-side definitions used to state the claims
   ============================ -/

/-- First-match-wins evaluation of an ordered rule list, defaulting to
`unknown` — the precedence semantics the spec prescribes for
`classifyWallet`. -/
def firstMatch : List ((HolderInfo → Bool) × WalletCategory) → HolderInfo →
    WalletCategory
  | [], _ => .unknown
  | rule :: rest, h => if rule.1 h then rule.2 else firstMatch rest h

/-- The fixed precedence order of the classification rules: sniper, jeeter,
MEV bot, whale, strong hands, weak hands (then unknown). -/
def classificationPrecedence :
    List ((HolderInfo → Bool) × WalletCategory) :=
  [(isSniper, .sniper),
   (isJeeterWallet, .jeeter),
   (isMEVBot, .mev_bot),
   (isWhale, .whale),
   (isStrongHands, .strong_hands),
   (isWeakHands, .weak_hands)]

/-- Liquidity-tier deduction exactly as the spec sentence lists it
(claim C6): 40 below $5k, 20 below $10k, 10 below $50k. -/
def specLiquidityPenalty (liquidity : ℚ) : ℚ :=
  if liquidity < 5000 then 40
  else if liquidity < 10000 then 20
  else if liquidity < 50000 then 10
  else 0

/-- Ratio-tier deduction exactly as the spec sentence lists it (claim C6):
30 below 0.05, 15 below 0.1, 10 above 0.5. -/
def specRatioPenalty (ratio : ℚ) : ℚ :=
  if ratio < 0.05 then 30
  else if ratio < 0.1 then 15
  else if ratio > 0.5 then 10
  else 0

/-- The liquidity/marketCap ratio as the analyzer defines it (0 when the
market cap is not positive). -/
def lpRatioOf (t : TokenInfo) : ℚ :=
  if t.marketCap.getD 0 > 0 then t.liquidity.getD 0 / t.marketCap.getD 0
  else 0

/-- Health score as claim C6 states it: ratio deductions applied whenever
the ratio is in a penalized tier, with no positivity guard. -/
def claimedLpHealthScore (t : TokenInfo) : ℚ :=
  let liquidity := t.liquidity.getD 0
  let marketCap := t.marketCap.getD 0
  let ratio := if marketCap > 0 then liquidity / marketCap else 0
  if marketCap > 0 ∧ liquidity = 0 then 0
  else clamp 0 100 (100 - specLiquidityPenalty liquidity - specRatioPenalty ratio)

/-- Danger-zone risk contribution of the two liquidity tiers; they fire
independently (a truthy liquidity under $5k collects both). -/
def liquidityRiskContribution (t : TokenInfo) : ℚ :=
  (if truthy t.liquidity && decide (t.liquidity.getD 0 < 10000) then 15 else 0) +
  (if truthy t.liquidity && decide (t.liquidity.getD 0 < 5000) then 20 else 0)

/-- Danger-zone risk contributions of the ten non-liquidity flags. -/
def nonLiquidityRiskContribution (tx : TransactionAnalysis)
    (wq : WalletQualityAnalysis) : ℚ :=
  (if decide (1 - tx.buySellRatio > 0.6) then 15 else 0) +
  (if decide (wq.averageHoldTime < 10) then 15 else 0) +
  (if decide ((wq.categoryDistribution .sniper : ℚ) /
              (totalWalletsOf wq.categoryDistribution : ℚ) > 0.3) then 20 else 0) +
  (if decide (wq.averageHoldTime < 5) then 20 else 0) +
  (if tx.mevPatterns.detected && decide (tx.mevPatterns.score > 50) then 15 else 0) +
  (if decide ((wq.categoryDistribution .mev_bot : ℚ) /
              (totalWalletsOf wq.categoryDistribution : ℚ) > 0.2) then 10 else 0) +
  (if wq.highQualityWalletCount == 0 then 15 else 0) +
  (if decide (tx.transactionsPerMinute > 5) &&
      decide (tx.averageTransactionSize < 100) then 10 else 0) +
  (if wq.jeeterDominance then 25 else 0) +
  (if wq.sniperDominance then 20 else 0)

/-- Replace the structural danger-zone risk score, keeping every other
input fixed (claim C9). -/
def setRiskScore (s : StructuralSignals) (r : ℚ) : StructuralSignals :=
  { s with jeeterFlags := { s.jeeterFlags with riskScore := r } }

/- ============================
    Concrete inputs used by counterexamples and witnesses
   ============================ -/

/-- The scenario holder of the spec: balance 1000 of supply 100000 (1%),
average hold time 3 minutes, 15 transactions. -/
def scenarioSniperHolder : HolderInfo :=
  { address := "scenario-holder", balance := 1000, percentage := 1,
    transactionCount := some 15, buyTransactions := none,
    sellTransactions := none, averageHoldTime := some 3,
    isJeeter := false, jeeterScore := none }

/-- A token snapshot with every optional field absent. -/
def defaultToken : TokenInfo :=
  { address := "token", decimals := 9, supply := 0,
    marketCap := none, price := none, liquidity := none }

/-- A token snapshot whose liquidity is exactly 0 (present but falsy). -/
def tokenLiqZero : TokenInfo :=
  { defaultToken with liquidity := some 0 }

/-- A token snapshot with a thin ($3k) liquidity pool. -/
def tokenLiq3k : TokenInfo :=
  { defaultToken with liquidity := some 3000 }

/-- The well-defined "empty" flow-window statistics: balanced ratios (0.5),
zero volumes and counts, no MEV. -/
def defaultTx : TransactionAnalysis :=
  { buySellRatio := 0.5, buyVolume := 0, sellVolume := 0, totalVolume := 0,
    buySellRatio5m := 0.5, buySellRatio15m := 0.5, buySellRatio1h := 0.5,
    buySellRatio24h := 0.5, largeBuyCount := 0, largeSellCount := 0,
    mevPatterns := { detected := false, sandwichAttacks := 0,
                     frontRunning := 0, botLikeBehavior := 0, score := 0 },
    transactionCount := 0, transactionsPerMinute := 0,
    averageTransactionSize := 0 }

/-- A benign aggregate wallet analysis: no flagged categories, one
high-quality wallet, long average hold time. -/
def benignWalletQuality : WalletQualityAnalysis :=
  { walletScores := [], categoryDistribution := fun _ => 0,
    averageHoldTime := 100, averageSellBuyRatio := 0,
    highQualityWalletCount := 1, jeeterDominance := false,
    sniperDominance := false, overallQualityScore := 50 }

/-- An exhaustion record with no signals. -/
def quietExhaustion : SellerExhaustionSignals :=
  { decreasingSellVolume := false, decreasingSellFrequency := false,
    sellerDominanceCollapse := false, finalLargeSellerExit := false,
    mevInactivity := true, tightPriceRange := false,
    volatilityCollapse := false, exhaustionScore := 10,
    isBottomSignal := false }

/-- A jeeter-zone record with the danger flag set. -/
def dangerJeeterFlags : JeeterZoneFlags :=
  { highSellToBuyRatio := true, fastHolderRotation := true,
    snipersEnteringEarly := false, quickDumps := true,
    liquidityDrainage := false, mevSpam := false, tooManySwapBots := false,
    noStrongWalletAccumulation := true, lpTooThin := false,
    routerArbitragePump := false, creatorWalletActivity := false,
    suspiciousLPBehavior := false, riskScore := 65, isJeeterZone := true }

/-- A neutral layer-1 record. -/
def neutralMicro : MicrostructureSignals :=
  { momentum5s := 0, momentum15s := 0, momentum60s := 0,
    buySellDelta5s := 0, buySellDelta15s := 0, buySellDelta60s := 0,
    volatilityStdDevRecent := 0, volatilityTrendPct := JNum.val 0,
    botActivityIndex := 0, liquidityVelocity := 0,
    microScore := JNum.val 50 }

/-- A layer-2 record sitting in the danger zone. -/
def dangerStructural : StructuralSignals :=
  { walletQualityAnalysis := benignWalletQuality,
    lpHealthSignals := LPHealthAnalyzer.analyze defaultToken,
    sellerExhaustion := quietExhaustion,
    jeeterFlags := dangerJeeterFlags,
    structuralScore := JNum.val 40 }

/- ============================
    Helper lemmas
   ============================ -/

theorem le_clamp (lo hi x : ℚ) : lo ≤ clamp lo hi x := le_max_left _ _

theorem clamp_le {lo hi : ℚ} (h : lo ≤ hi) (x : ℚ) : clamp lo hi x ≤ hi :=
  max_le h (min_le_left _ _)

theorem clamp_mono (lo hi : ℚ) {x y : ℚ} (h : x ≤ y) :
    clamp lo hi x ≤ clamp lo hi y :=
  max_le_max le_rfl (min_le_min le_rfl h)

theorem jsRound_mono {x y : ℚ} (h : x ≤ y) : jsRound x ≤ jsRound y :=
  Int.floor_le_floor (by linarith)

theorem jsRound_zero : jsRound 0 = 0 := by
  rw [jsRound, Int.floor_eq_iff]
  norm_num

theorem jsRound_hundred : jsRound 100 = 100 := by
  rw [jsRound, Int.floor_eq_iff]
  norm_num

theorem cast_jsRound_clamp (x : ℚ) :
    ((jsRound (clamp 0 100 x) : ℤ) : ℚ) = clamp 0 100 ((jsRound x : ℤ) : ℚ) := by
  unfold clamp
  rcases le_or_lt x 0 with hx | hx
  · have h1 : min (100:ℚ) x = x := min_eq_right (by linarith)
    have h2 : max (0:ℚ) x = 0 := max_eq_left hx
    have h3 : jsRound x ≤ 0 := by
      have := jsRound_mono hx
      rwa [jsRound_zero] at this
    have h4 : ((jsRound x : ℤ) : ℚ) ≤ 0 := by exact_mod_cast h3
    have h5 : min (100:ℚ) ((jsRound x : ℤ) : ℚ) = ((jsRound x : ℤ) : ℚ) :=
      min_eq_right (by linarith)
    have h6 : max (0:ℚ) ((jsRound x : ℤ) : ℚ) = 0 := max_eq_left h4
    rw [h1, h2, h5, h6, jsRound_zero]
    norm_num
  · rcases le_or_lt x 100 with hx2 | hx2
    · have h1 : min (100:ℚ) x = x := min_eq_right hx2
      have h2 : max (0:ℚ) x = x := max_eq_right (le_of_lt hx)
      have h3 : (0:ℤ) ≤ jsRound x := by
        have := jsRound_mono (le_of_lt hx)
        rwa [jsRound_zero] at this
      have h4 : jsRound x ≤ 100 := by
        have := jsRound_mono hx2
        rwa [jsRound_hundred] at this
      have h5 : min (100:ℚ) ((jsRound x : ℤ) : ℚ) = ((jsRound x : ℤ) : ℚ) :=
        min_eq_right (by exact_mod_cast h4)
      have h6 : max (0:ℚ) ((jsRound x : ℤ) : ℚ) = ((jsRound x : ℤ) : ℚ) :=
        max_eq_right (by exact_mod_cast h3)
      rw [h1, h2, h5, h6]
    · have h1 : min (100:ℚ) x = 100 := min_eq_left (le_of_lt hx2)
      have h3 : (100:ℤ) ≤ jsRound x := by
        have := jsRound_mono (le_of_lt hx2)
        rwa [jsRound_hundred] at this
      have h5 : min (100:ℚ) ((jsRound x : ℤ) : ℚ) = 100 :=
        min_eq_left (by exact_mod_cast h3)
      have h2 : (0:ℚ) ⊔ 100 = 100 := by norm_num
      rw [h1, h5, h2, jsRound_hundred]
      norm_num

/- ============================
    Claim theorems
   ============================ -/

/-- C1: the claim says every public core function — in particular the
orchestrator `ThreeLayerAnalysisService.analyzeToken` — never throws on
well-typed inputs, and that an empty price series means low confidence, not
an error.  The code violates this: on an empty price series the orchestrator
dereferences the last element of the series and throws (modelled as `none`),
for every choice of the remaining inputs. -/
theorem C1_analyzeToken_throws_on_empty_series (sqrtFn : ℚ → ℚ)
    (tx : TransactionAnalysis) (holders : List HolderInfo)
    (tokenInfo : TokenInfo) :
    ThreeLayerAnalysisService.analyzeToken sqrtFn [] tx holders tokenInfo =
      none := by
  simp [ThreeLayerAnalysisService.analyzeToken]

/-- C4: `classifyWallet` evaluates its rules in the fixed precedence order
sniper, jeeter, MEV bot, whale, strong hands, weak hands, unknown, first
match winning; and the scenario holder (hold time 3 min, 15 transactions)
is classified sniper. -/
theorem C4_classifyWallet_precedence :
    (∀ h : HolderInfo,
      (classifyWallet h).category = firstMatch classificationPrecedence h) ∧
    (classifyWallet scenarioSniperHolder).category = WalletCategory.sniper := by
  constructor
  · intro h
    simp only [classifyWallet, firstMatch, classificationPrecedence]
    split_ifs <;> rfl
  · norm_num [classifyWallet, isSniper, scenarioSniperHolder]

/-- C2: `predictOutcome` selects exactly one terminal state per call: the
opportunity and trap flags are never both true, and the Wait state (both
flags false) holds exactly when the input is not in the jeeter zone and the
micro/structural scores disagree about their 60/55 thresholds (the mixed
case). -/
theorem C2_predictOutcome_terminal_states (p : ℚ)
    (micro : MicrostructureSignals) (structural : StructuralSignals) :
    (((predictOutcome p micro structural).isDipOpportunity &&
      (predictOutcome p micro structural).isDipTrap) = false) ∧
    (((predictOutcome p micro structural).isDipOpportunity = false ∧
      (predictOutcome p micro structural).isDipTrap = false) ↔
     (structural.jeeterFlags.isJeeterZone = false ∧
      (micro.microScore.sanitize ≥ 60 ↔
       ¬(structural.structuralScore.sanitize ≥ 55)))) := by
  simp only [predictOutcome]
  cases hj : structural.jeeterFlags.isJeeterZone
  · by_cases hm : micro.microScore.sanitize ≥ 60 <;>
      by_cases hs : structural.structuralScore.sanitize ≥ 55 <;>
      simp [hj, hm, hs]
  · simp [hj]

/-- C3: the returned combinedScore equals
round(clamp(micro·0.45 + structural·0.45 + max(0, 1 − |volTrend|)·100·0.10,
0, 100)), with NaN inputs replaced by 0 before the weighted sum (the
`sanitize` applications). -/
theorem C3_combinedScore_formula (p : ℚ) (micro : MicrostructureSignals)
    (structural : StructuralSignals) :
    (predictOutcome p micro structural).combinedScore =
      ((jsRound (clamp 0 100
        (micro.microScore.sanitize * 0.45 +
         structural.structuralScore.sanitize * 0.45 +
         max 0 (1 - |micro.volatilityTrendPct.sanitize|) * 100 * 0.10)) : ℤ) : ℚ) := by
  simp only [predictOutcome]
  rw [cast_jsRound_clamp]
  have hmax : max (0:ℚ) (1 - |micro.volatilityTrendPct.sanitize|) * 100 =
      max 0 ((1 - |micro.volatilityTrendPct.sanitize|) * 100) := by
    rw [max_mul_of_nonneg _ _ (by norm_num : (0:ℚ) ≤ 100), zero_mul]
  congr 2
  rw [hmax]
  norm_num [PARAMS.weightMicrostructure, PARAMS.weightStructural,
    PARAMS.weightVolatility]

/-- C5 counterexample: a token whose liquidity is exactly 0 is below $10k,
yet the thin-liquidity flag does not fire and the risk score collects no
liquidity points — the `tokenInfo.liquidity &&` truthiness guard skips a
zero liquidity. -/
theorem C5_counterexample_zero_liquidity :
    tokenLiqZero.liquidity.getD 0 < 10000 ∧
    (JeeterZoneDetector.detect defaultTx benignWalletQuality
      tokenLiqZero).lpTooThin = false ∧
    (JeeterZoneDetector.detect defaultTx benignWalletQuality
      tokenLiqZero).riskScore = 0 := by
  refine ⟨by norm_num [tokenLiqZero, defaultToken], ?_, ?_⟩ <;>
    norm_num [JeeterZoneDetector.detect, defaultTx, benignWalletQuality,
      tokenLiqZero, defaultToken, truthy, totalWalletsOf]

/-- C5 amended: for every input whose liquidity is truthy (present and
non-zero) and below $10k the +15 thin-liquidity flag fires; the risk score
decomposes into the non-liquidity contributions plus the two independent
liquidity tiers (both fire below $5k); and the danger-zone flag holds
exactly when the additive risk score is at least 50. -/
theorem C5_amended_liquidity_flags (tx : TransactionAnalysis)
    (wq : WalletQualityAnalysis) (token : TokenInfo) :
    ((truthy token.liquidity = true ∧ token.liquidity.getD 0 < 10000) →
      (JeeterZoneDetector.detect tx wq token).lpTooThin = true) ∧
    (JeeterZoneDetector.detect tx wq token).riskScore =
      nonLiquidityRiskContribution tx wq + liquidityRiskContribution token ∧
    ((JeeterZoneDetector.detect tx wq token).isJeeterZone = true ↔
      50 ≤ (JeeterZoneDetector.detect tx wq token).riskScore) := by
  refine ⟨?_, ?_, ?_⟩
  · rintro ⟨h1, h2⟩
    simp [JeeterZoneDetector.detect, h1, h2]
  · simp only [JeeterZoneDetector.detect, nonLiquidityRiskContribution,
      liquidityRiskContribution]
    ring
  · simp [JeeterZoneDetector.detect, ge_iff_le, decide_eq_true_iff]

/-- C5 amended, witness: a token with $3k liquidity (truthy, below $10k)
makes the thin-liquidity flag fire. -/
theorem C5_amended_liquidity_flags_witness :
    (truthy tokenLiq3k.liquidity = true ∧
     tokenLiq3k.liquidity.getD 0 < 10000) ∧
    (JeeterZoneDetector.detect defaultTx benignWalletQuality
      tokenLiq3k).lpTooThin = true := by
  have hpre : truthy tokenLiq3k.liquidity = true ∧
      tokenLiq3k.liquidity.getD 0 < 10000 := by
    norm_num [truthy, tokenLiq3k, defaultToken]
  exact ⟨hpre,
    (C5_amended_liquidity_flags defaultTx benignWalletQuality tokenLiq3k).1 hpre⟩

/-- C6 counterexample: at the all-default token (liquidity and market cap
absent, hence 0) the claimed schedule subtracts both the 40 liquidity
penalty and the 30 ratio penalty (the ratio 0 is < 0.05), giving 30, while
the analyzer — whose ratio penalties only apply to a positive ratio —
returns 60. -/
theorem C6_counterexample_default_token :
    claimedLpHealthScore defaultToken = 30 ∧
    (LPHealthAnalyzer.analyze defaultToken).healthScore = 60 := by
  constructor
  · norm_num [claimedLpHealthScore, defaultToken, specLiquidityPenalty,
      specRatioPenalty, clamp, min_def, max_def]
  · norm_num [LPHealthAnalyzer.analyze, defaultToken, clamp, min_def, max_def]

/-- C6 amended: the health score follows the tiered schedule with the ratio
deductions applied only when the computed ratio is positive, is hard-zeroed
when market cap is positive but liquidity is 0, lies in [0, 100], and the
healthy boolean holds exactly when the score is at least 60. -/
theorem C6_amended_lp_health_score (t : TokenInfo) :
    ((LPHealthAnalyzer.analyze t).healthScore =
      (if t.marketCap.getD 0 > 0 ∧ t.liquidity.getD 0 = 0 then 0
       else clamp 0 100
         (100 - specLiquidityPenalty (t.liquidity.getD 0) -
          (if lpRatioOf t > 0 then specRatioPenalty (lpRatioOf t) else 0)))) ∧
    0 ≤ (LPHealthAnalyzer.analyze t).healthScore ∧
    (LPHealthAnalyzer.analyze t).healthScore ≤ 100 ∧
    ((LPHealthAnalyzer.analyze t).isHealthy = true ↔
      60 ≤ (LPHealthAnalyzer.analyze t).healthScore) := by
  refine ⟨?_, ?_, ?_, ?_⟩
  · simp only [LPHealthAnalyzer.analyze, lpRatioOf, specLiquidityPenalty,
      specRatioPenalty]
    by_cases h0 : t.marketCap.getD 0 > 0 ∧ t.liquidity.getD 0 = 0
    · rw [if_pos h0, if_pos h0, clamp]
      norm_num
    · rw [if_neg h0, if_neg h0]
      congr 1
      split_ifs <;> norm_num
  · simp only [LPHealthAnalyzer.analyze]
    exact le_clamp 0 100 _
  · simp only [LPHealthAnalyzer.analyze]
    exact clamp_le (by norm_num) _
  · simp only [LPHealthAnalyzer.analyze]
    simp [ge_iff_le, decide_eq_true_iff]

/-- C7: the empty holder list scores exactly 0 (not NaN, not a neutral 50),
and every non-empty holder list scores
clamp(100·(strong+whale)/total − 50·jeeterFraction − 30·sniperFraction,
0, 100). -/
theorem C7_overallQualityScore (holders : List HolderInfo) :
    (WalletQualityAnalyzer.analyze []).overallQualityScore = 0 ∧
    (holders ≠ [] →
      (WalletQualityAnalyzer.analyze holders).overallQualityScore =
        clamp 0 100
          (100 * (((countCategory holders .strong_hands : ℚ) +
                   (countCategory holders .whale : ℚ)) / (holders.length : ℚ)) -
           50 * ((countCategory holders .jeeter : ℚ) / (holders.length : ℚ)) -
           30 * ((countCategory holders .sniper : ℚ) / (holders.length : ℚ)))) := by
  constructor
  · simp [WalletQualityAnalyzer.analyze]
  · intro hne
    simp only [WalletQualityAnalyzer.analyze]
    rw [if_neg (by simpa using hne)]
    ring_nf

/-- C7 witness: the formula evaluated on a concrete one-holder list. -/
theorem C7_overallQualityScore_witness :
    ([scenarioSniperHolder] ≠ ([] : List HolderInfo)) ∧
    (WalletQualityAnalyzer.analyze [scenarioSniperHolder]).overallQualityScore =
      clamp 0 100
        (100 * (((countCategory [scenarioSniperHolder] .strong_hands : ℚ) +
                 (countCategory [scenarioSniperHolder] .whale : ℚ)) /
                (([scenarioSniperHolder] : List HolderInfo).length : ℚ)) -
         50 * ((countCategory [scenarioSniperHolder] .jeeter : ℚ) /
               (([scenarioSniperHolder] : List HolderInfo).length : ℚ)) -
         30 * ((countCategory [scenarioSniperHolder] .sniper : ℚ) /
               (([scenarioSniperHolder] : List HolderInfo).length : ℚ))) :=
  ⟨by simp, (C7_overallQualityScore [scenarioSniperHolder]).2 (by simp)⟩

/-- C8: the additive exhaustion score never exceeds 100, and the
bottom-signal boolean holds exactly when the score is at least 60 AND the
tight-price-range, seller-dominance-collapse and MEV-inactivity signals all
hold — a conjunctive gate. -/
theorem C8_exhaustion_bottom_gate (sqrtFn : ℚ → ℚ)
    (tx : TransactionAnalysis) (prices : List PricePoint) :
    (SellerExhaustionAnalyzer.analyze sqrtFn tx prices).exhaustionScore ≤ 100 ∧
    ((SellerExhaustionAnalyzer.analyze sqrtFn tx prices).isBottomSignal = true ↔
      (60 ≤ (SellerExhaustionAnalyzer.analyze sqrtFn tx prices).exhaustionScore ∧
       (SellerExhaustionAnalyzer.analyze sqrtFn tx prices).tightPriceRange = true ∧
       (SellerExhaustionAnalyzer.analyze sqrtFn tx
         prices).sellerDominanceCollapse = true ∧
       (SellerExhaustionAnalyzer.analyze sqrtFn tx prices).mevInactivity = true)) := by
  constructor
  · simp only [SellerExhaustionAnalyzer.analyze]
    split_ifs <;> norm_num
  · simp only [SellerExhaustionAnalyzer.analyze]
    simp [Bool.and_eq_true, decide_eq_true_iff, ge_iff_le, and_assoc]

/-- C9: holding every other input fixed, a larger structural danger-zone
risk score never decreases the dip confidence once the Trap state is
selected for both inputs (Trap confidence is the clamped rounding of
max(combinedScore, riskScore), monotone in the risk score). -/
theorem C9_trap_confidence_monotone (p : ℚ) (micro : MicrostructureSignals)
    (s : StructuralSignals) (r1 r2 : ℚ) (hr : r1 ≤ r2)
    (h1 : (predictOutcome p micro (setRiskScore s r1)).isDipTrap = true)
    (h2 : (predictOutcome p micro (setRiskScore s r2)).isDipTrap = true) :
    (predictOutcome p micro (setRiskScore s r1)).dipConfidence ≤
    (predictOutcome p micro (setRiskScore s r2)).dipConfidence := by
  clear h2
  simp only [predictOutcome, setRiskScore] at h1 ⊢
  cases hj : s.jeeterFlags.isJeeterZone
  · simp only [hj] at h1 ⊢
    by_cases hm : micro.microScore.sanitize ≥ 60 <;>
      by_cases hs : s.structuralScore.sanitize ≥ 55 <;>
      simp_all
  · simp only [hj] at h1 ⊢
    simp only [if_true]
    apply clamp_mono
    exact_mod_cast jsRound_mono (max_le_max le_rfl hr)

/-- C9 witness: concrete danger-zone input with risk scores 30 ≤ 80 — Trap
selected for both, confidence monotone. -/
theorem C9_trap_confidence_monotone_witness :
    ((30:ℚ) ≤ 80) ∧
    (predictOutcome 1 neutralMicro (setRiskScore dangerStructural 30)).isDipTrap
      = true ∧
    (predictOutcome 1 neutralMicro (setRiskScore dangerStructural 80)).isDipTrap
      = true ∧
    (predictOutcome 1 neutralMicro (setRiskScore dangerStructural 30)).dipConfidence ≤
      (predictOutcome 1 neutralMicro (setRiskScore dangerStructural 80)).dipConfidence := by
  have hr : (30:ℚ) ≤ 80 := by norm_num
  have h1 : (predictOutcome 1 neutralMicro
      (setRiskScore dangerStructural 30)).isDipTrap = true := by
    simp [predictOutcome, setRiskScore, dangerStructural, dangerJeeterFlags]
  have h2 : (predictOutcome 1 neutralMicro
      (setRiskScore dangerStructural 80)).isDipTrap = true := by
    simp [predictOutcome, setRiskScore, dangerStructural, dangerJeeterFlags]
  exact ⟨hr, h1, h2,
    C9_trap_confidence_monotone 1 neutralMicro dangerStructural 30 80 hr h1 h2⟩

/-- C10: a price series with fewer than 2 points makes the computed price
volatility 1 (not a neutral 0), so the tight-price-range and
volatility-collapse signals are false and the bottom-signal boolean is
necessarily false, whatever the flow statistics. -/
theorem C10_short_series_volatility_one (sqrtFn : ℚ → ℚ)
    (tx : TransactionAnalysis) (prices : List PricePoint)
    (hlen : prices.length < 2) :
    calculatePriceVolatility sqrtFn prices = 1 ∧
    (SellerExhaustionAnalyzer.analyze sqrtFn tx prices).tightPriceRange = false ∧
    (SellerExhaustionAnalyzer.analyze sqrtFn tx prices).volatilityCollapse
      = false ∧
    (SellerExhaustionAnalyzer.analyze sqrtFn tx prices).isBottomSignal = false := by
  have hv : calculatePriceVolatility sqrtFn prices = 1 := by
    rw [calculatePriceVolatility, if_pos hlen]
  have htr : calculateVolatilityTrend sqrtFn prices = 0 := by
    rw [calculateVolatilityTrend, if_pos (by omega)]
  have hd1 : ¬((1:ℚ) < 0.05) := by norm_num
  have hd2 : ¬((0:ℚ) < -0.2) := by norm_num
  refine ⟨hv, ?_, ?_, ?_⟩ <;>
    simp [SellerExhaustionAnalyzer.analyze, hv, htr, hd1, hd2]

/-- C10 witness: the empty price series with the default flow statistics. -/
theorem C10_short_series_volatility_one_witness :
    (([] : List PricePoint).length < 2) ∧
    (calculatePriceVolatility (fun _ => 0) [] = 1 ∧
     (SellerExhaustionAnalyzer.analyze (fun _ => 0) defaultTx
       []).tightPriceRange = false ∧
     (SellerExhaustionAnalyzer.analyze (fun _ => 0) defaultTx
       []).volatilityCollapse = false ∧
     (SellerExhaustionAnalyzer.analyze (fun _ => 0) defaultTx
       []).isBottomSignal = false) :=
  ⟨by decide,
   C10_short_series_volatility_one (fun _ => 0) defaultTx [] (by decide)⟩

end DegenBot
